import Mathlib

/-!
Verification of the codedraft proactive-suggestion core.

This file shallowly embeds the parts of the repository that the verified
properties are about:

* `ChangeAnalyzer` (src/services/ChangeAnalyzer.ts, first revision in the
  file): pattern detection, cyclomatic-style complexity estimation and the
  composite significance score of `analyzeChange`.
* `ProactiveService` (src/services/ProactiveService.ts, second revision in
  the file): the save-burst gate of `handleFileSave`, the draft-readiness
  section of `checkTimeBasedTriggers`, `assessCaptureQuality` and
  `detectThemes`.
* `NotificationManager` (services/NotificationManager.ts): the adaptive
  notification gate `canShowNotification`, the suggestion-showing
  transitions and the session/statistics counters.

Texts are modelled as Lean `String`s (lists of characters); the JavaScript
regular expressions used by the analyzer are embedded as data for a small
backtracking matcher (`RE`, `reMatchLen`) that follows JavaScript
semantics: leftmost match, alternatives tried left to right, greedy and
lazy quantifiers.  Machine numbers are modelled as `Nat`/`Int`, and the
floating-point cooldown/acceptance-rate arithmetic of the notification
gate as exact rationals (every comparison the theorems touch is far from
the region where binary floating point and exact arithmetic could
disagree).  Timestamps (`Date.now()` milliseconds) are `Int`.
-/

/-! ## Character classes and basic string helpers -/

/-- JavaScript `\s` restricted to ASCII (space, tab, newline, carriage
return, vertical tab, form feed).  All texts in this development are
ASCII. -/
def isSpaceChar (c : Char) : Bool :=
  c = ' ' || c = '\t' || c = '\n' || c = '\r' || c = '\x0b' || c = '\x0c'

/-- JavaScript `\w`: `[A-Za-z0-9_]`. -/
def isWordChar (c : Char) : Bool :=
  ('a' ≤ c && c ≤ 'z') || ('A' ≤ c && c ≤ 'Z') || ('0' ≤ c && c ≤ '9') || c = '_'

/-- ASCII lowercasing, the fragment of `String.prototype.toLowerCase`
exercised here. -/
def lowerChar (c : Char) : Char := c.toLower

def lowerList (s : List Char) : List Char := s.map lowerChar

/-- `needle` occurs as a contiguous sublist of `haystack`
(JavaScript `String.prototype.includes`). -/
def listContains (haystack needle : List Char) : Bool :=
  match haystack with
  | [] => needle.isEmpty
  | _ :: t => needle.isPrefixOf haystack || listContains t needle

/-- JavaScript `String.prototype.endsWith`. -/
def listEndsWith (haystack needle : List Char) : Bool :=
  needle.reverse.isPrefixOf haystack.reverse

def strContains (haystack needle : String) : Bool :=
  listContains haystack.data needle.data

def strEndsWith (haystack needle : String) : Bool :=
  listEndsWith haystack.data needle.data

def lowerStr (s : String) : String := ⟨lowerList s.data⟩

/-- Number of `\n` characters in a list. -/
def countNewlines (s : List Char) : Nat := s.countP (· = '\n')

/-- Length of JavaScript `text.split('\n')`: one more than the number of
newline characters. -/
def splitNlLength (s : String) : Nat := countNewlines s.data + 1

/-! ## A small regular-expression engine

The analyzer runs a fixed set of JavaScript regular expressions over
text.  They are embedded as values of `RE` and executed by a
continuation-passing backtracking matcher with JavaScript semantics:
at a position, alternatives are tried left to right, a greedy quantifier
prefers the longest repetition and a lazy one the shortest, and the
overall match at a position is the first one this search order finds.
Every quantifier in the source's regexes ranges over a single-character
class, which keeps the matcher structurally recursive. -/

inductive RE where
  /-- a literal character sequence -/
  | lit : List Char → RE
  /-- a single character of a class -/
  | cls : (Char → Bool) → RE
  | cat : RE → RE → RE
  | alt : RE → RE → RE
  /-- greedy `c*` over a character class -/
  | starG : (Char → Bool) → RE
  /-- lazy `c*?` over a character class -/
  | starL : (Char → Bool) → RE
  /-- greedy `c+` over a character class -/
  | plusG : (Char → Bool) → RE
  /-- greedy `r?` -/
  | optG : RE → RE

/-- First `some` among `k i` for `i = hi, hi-1, ..., 0` (greedy order). -/
def firstSomeDown (k : Nat → Option Nat) : Nat → Option Nat
  | 0 => k 0
  | n + 1 => (k (n + 1)).orElse fun _ => firstSomeDown k n

/-- First `some` among `k i` for `i = 0, 1, ..., hi` (lazy order). -/
def firstSomeUp (k : Nat → Option Nat) (hi : Nat) : Option Nat :=
  go (hi + 1) 0
where
  go : Nat → Nat → Option Nat
    | 0, _ => none
    | fuel + 1, i => (k i).orElse fun _ => go fuel (i + 1)

/-- Match `r` at the head of `s`, then continue with `k` on the rest;
returns the first result the JavaScript backtracking order produces. -/
def reMatchLen : RE → List Char → (List Char → Option Nat) → Option Nat
  | .lit w, s, k => if w.isPrefixOf s then k (s.drop w.length) else none
  | .cls p, s, k =>
    match s with
    | [] => none
    | c :: t => if p c then k t else none
  | .cat a b, s, k => reMatchLen a s fun s' => reMatchLen b s' k
  | .alt a b, s, k => (reMatchLen a s k).orElse fun _ => reMatchLen b s k
  | .starG p, s, k =>
    let run := (s.takeWhile p).length
    firstSomeDown (fun i => k (s.drop i)) run
  | .starL p, s, k =>
    let run := (s.takeWhile p).length
    firstSomeUp (fun i => k (s.drop i)) run
  | .plusG p, s, k =>
    let run := (s.takeWhile p).length
    if run = 0 then none
    else firstSomeDown (fun i => k (s.drop (i + 1))) (run - 1)
  | .optG a, s, k => (reMatchLen a s k).orElse fun _ => k s

/-- Length of the match of `r` starting exactly at the head of `s`. -/
def reFind (r : RE) (s : List Char) : Option Nat :=
  reMatchLen r s fun rest => some (s.length - rest.length)

/-- Position and length of the leftmost match of `r` in `s`
(JavaScript `RegExp.prototype.exec` from index 0). -/
def reFirstFind (r : RE) : List Char → Option (Nat × Nat)
  | [] => (reFind r []).map fun len => (0, len)
  | c :: t =>
    match reFind r (c :: t) with
    | some len => some (0, len)
    | none => (reFirstFind r t).map fun pl => (pl.1 + 1, pl.2)

/-- Does `r` match anywhere in `s` (`RegExp.prototype.test`)? -/
def reTest (r : RE) (s : List Char) : Bool :=
  (reFirstFind r s).isSome

/-- Number of matches found by `String.prototype.match` with the `g`
flag: repeatedly take the leftmost match and resume after it.  `fuel`
bounds the recursion; every step consumes at least one character, so
`s.length + 1` is always enough. -/
def countMatchesAux (r : RE) : Nat → List Char → Nat
  | 0, _ => 0
  | fuel + 1, s =>
    match reFirstFind r s with
    | none => 0
    | some (pos, len) => 1 + countMatchesAux r fuel (s.drop (pos + max len 1))

def countMatches (r : RE) (s : List Char) : Nat :=
  countMatchesAux r (s.length + 1) s

/-- `\b(w₁|w₂|…)\b` tested anywhere in `s`: some `w ∈ words` occurs with a
non-word character (or the string edge) on both sides.  `prev` carries the
character just before the current position. -/
def testWordsAux (words : List (List Char)) : Option Char → List Char → Bool
  | _, [] => false
  | prev, c :: t =>
    let boundaryBefore := match prev with
      | none => true
      | some pc => !isWordChar pc
    (boundaryBefore &&
      words.any fun w =>
        w.isPrefixOf (c :: t) &&
          (match (c :: t).drop w.length with
           | [] => true
           | d :: _ => !isWordChar d)) ||
    testWordsAux words (some c) t

def testWords (words : List String) (s : List Char) : Bool :=
  testWordsAux (words.map String.data) none s

/-! ## The analyzer's regular expressions (ChangeAnalyzer.ts) -/

def reLit (s : String) : RE := .lit s.data

def reSeq : List RE → RE
  | [] => .lit []
  | [r] => r
  | r :: rs => .cat r (reSeq rs)

def wsStar : RE := .starG isSpaceChar
def wsPlus : RE := .plusG isSpaceChar
def wPlus : RE := .plusG isWordChar
def anyStarG : RE := .starG fun _ => true
def anyStarL : RE := .starL fun _ => true

/-- `/if\s*\(|else\s+if|else|switch|case/g` (conditional statements). -/
def conditionalsRE : RE :=
  .alt (reSeq [reLit "if", wsStar, reLit "("])
    (.alt (reSeq [reLit "else", wsPlus, reLit "if"])
      (.alt (reLit "else") (.alt (reLit "switch") (reLit "case"))))

/-- `/for\s*\(|while\s*\(|do\s*\{|\.forEach\(|\.map\(|\.filter\(|\.reduce\(/g` (loops). -/
def loopsRE : RE :=
  .alt (reSeq [reLit "for", wsStar, reLit "("])
    (.alt (reSeq [reLit "while", wsStar, reLit "("])
      (.alt (reSeq [reLit "do", wsStar, reLit "\x7b"])
        (.alt (reLit ".forEach(")
          (.alt (reLit ".map(") (.alt (reLit ".filter(") (reLit ".reduce("))))))

/-- `/&&|\|\|/g` (logical operators). -/
def logicalOpsRE : RE := .alt (reLit "&&") (reLit "||")

/-- `/try\s*\{|catch\s*\(|finally/g` (exception handling). -/
def exceptionsRE : RE :=
  .alt (reSeq [reLit "try", wsStar, reLit "\x7b"])
    (.alt (reSeq [reLit "catch", wsStar, reLit "("]) (reLit "finally"))

/-- `/\?[^:]+:/g` (ternary operators). -/
def ternaryRE : RE := reSeq [reLit "?", .plusG (· ≠ ':'), reLit ":"]

/-- `/\w+\s*\(/g` (function calls). -/
def functionCallsRE : RE := reSeq [wPlus, wsStar, reLit "("]

/-- `/if\s*\([^)]*null|undefined|empty/` (second bug-fix classifier; the
alternation binds at top level, so `undefined` and `empty` are tested as
plain substrings). -/
def ifNullRE : RE :=
  .alt (reSeq [reLit "if", wsStar, reLit "(", .starG (· ≠ ')'), reLit "null"])
    (.alt (reLit "undefined") (reLit "empty"))

/-- `/async.*await/s` (dot-all: any characters between). -/
def asyncAwaitRE : RE := reSeq [reLit "async", anyStarG, reLit "await"]

/-- `/@lru_cache|@cache/`. -/
def cacheDecoratorRE : RE := .alt (reLit "@lru_cache") (reLit "@cache")

/-- `/\.test\(|\.match\(/` (regex-validation classifier). -/
def testMatchRE : RE := .alt (reLit ".test(") (reLit ".match(")

/-- `/try\s*\{[\s\S]*?\}\s*catch/s`. -/
def tryCatchBlockRE : RE :=
  reSeq [reLit "try", wsStar, reLit "\x7b", anyStarL, reLit "\x7d", wsStar, reLit "catch"]

/-- `/try\s*\{/g`. -/
def tryBraceRE : RE := reSeq [reLit "try", wsStar, reLit "\x7b"]

/-- `/catch\s*\(/g`. -/
def catchParenRE : RE := reSeq [reLit "catch", wsStar, reLit "("]

/-- `/throw\s+new\s+\w+Error/g`. -/
def throwNewErrorRE : RE :=
  reSeq [reLit "throw", wsPlus, reLit "new", wsPlus, wPlus, reLit "Error"]

/-- `/finally\s*\{/g`. -/
def finallyBraceRE : RE := reSeq [reLit "finally", wsStar, reLit "\x7b"]

/-- `/function\s+\w+\s*\([\s\S]*?\)\s*\{/g` (new function declaration). -/
def newFunctionRE : RE :=
  reSeq [reLit "function", wsPlus, wPlus, wsStar, reLit "(", anyStarL, reLit ")",
    wsStar, reLit "\x7b"]

/-- `/const\s+\w+\s*=\s*\([^)]*\)\s*=>/g` (arrow function). -/
def arrowFnRE : RE :=
  reSeq [reLit "const", wsPlus, wPlus, wsStar, reLit "=", wsStar, reLit "(",
    .starG (· ≠ ')'), reLit ")", wsStar, reLit "=>"]

/-- `/class\s+\w+/g`. -/
def classDeclRE : RE := reSeq [reLit "class", wsPlus, wPlus]

/-- `/for\s*\(|while\s*\(/g` (loop classifier of new-algorithm). -/
def forWhileRE : RE :=
  .alt (reSeq [reLit "for", wsStar, reLit "("]) (reSeq [reLit "while", wsStar, reLit "("])

/-- `/\.reduce\(|\.map\(|\.filter\(/g`. -/
def reduceMapFilterRE : RE :=
  .alt (reLit ".reduce(") (.alt (reLit ".map(") (reLit ".filter("))

/-- `/export\s+(async\s+)?function/g`. -/
def exportFunctionRE : RE :=
  reSeq [reLit "export", wsPlus, .optG (.cat (reLit "async") wsPlus), reLit "function"]

/-- `/export\s+class/g`. -/
def exportClassRE : RE := reSeq [reLit "export", wsPlus, reLit "class"]

/-- `/export\s+interface/g`. -/
def exportInterfaceRE : RE := reSeq [reLit "export", wsPlus, reLit "interface"]

/-- `/public\s+async|public\s+\w+\s*\(/g`. -/
def publicMethodRE : RE :=
  .alt (reSeq [reLit "public", wsPlus, reLit "async"])
    (reSeq [reLit "public", wsPlus, wPlus, wsStar, reLit "("])

/-- `/@api|@endpoint|@route/gi`, applied to lowercased text. -/
def apiTagRE : RE := .alt (reLit "@api") (.alt (reLit "@endpoint") (reLit "@route"))

/-- `/use(State|Effect|Ref|Context|Reducer|Callback|Memo)/g`. -/
def reactHookRE : RE :=
  .cat (reLit "use")
    (.alt (reLit "State") (.alt (reLit "Effect") (.alt (reLit "Ref")
      (.alt (reLit "Context") (.alt (reLit "Reducer")
        (.alt (reLit "Callback") (reLit "Memo")))))))

/-- `/<\w+[\s\S]*?>/g` (JSX). -/
def jsxRE : RE := reSeq [reLit "<", wPlus, anyStarL, reLit ">"]

/-- `/\.create\(|\.update\(|\.delete\(|\.find\(/g`. -/
def ormCallRE : RE :=
  .alt (reLit ".create(") (.alt (reLit ".update(") (.alt (reLit ".delete(") (reLit ".find(")))

def bugFixWords : List String := ["fix", "bug", "patch", "resolve", "correct"]
def performanceWords : List String :=
  ["memo", "usememo", "usecallback", "optimize", "cache", "debounce", "throttle"]
def securityWords : List String :=
  ["sanitize", "validate", "escape", "auth", "permission", "token", "encrypt", "hash"]
def refactorWords : List String := ["refactor", "extract", "rename", "restructure"]
def algorithmWords : List String :=
  ["algorithm", "recursive", "iterate", "traverse", "search", "sort", "filter", "reduce", "map"]
def testKeywords : List String := ["test", "describe", "it", "expect", "assert", "should"]
def databaseWords : List String :=
  ["select", "insert", "update", "delete", "query", "transaction", "migration"]

/-! ## ChangeAnalyzer data model -/

structure TextDocument where
  fileName : String
  text : String
deriving DecidableEq

/-- `document.lineCount`: number of lines of the document text. -/
def docLineCount (doc : TextDocument) : Nat := splitNlLength doc.text

/-- One element of the `contentChanges` array of a
`TextDocumentChangeEvent`: the replaced range (only the line numbers and
the replaced length are consumed by the analyzer) and the inserted
text. -/
structure ContentChange where
  startLine : Nat
  endLine : Nat
  rangeLength : Nat
  text : String
deriving DecidableEq

inductive CType where
  | feature | fix | refactor | test | docs | performance | security
deriving DecidableEq

structure Range where
  startLine : Nat
  startChar : Nat
  endLine : Nat
  endChar : Nat
deriving DecidableEq

structure ChangeAnalysis where
  isInteresting : Bool
  score : Nat
  reason : Option String
  type : CType
  complexityDelta : Int
  suggestedCapture : Option (Range × String)
  patterns : List String
deriving DecidableEq

/-- Per-file record of the analyzer's `documentStates` map. -/
structure DocState where
  complexity : Nat
  lineCount : Nat
  lastAnalyzed : Int
deriving DecidableEq

def statesInsert (states : List (String × DocState)) (k : String) (v : DocState) :
    List (String × DocState) :=
  (k, v) :: states.eraseP fun e => e.1 = k

/-- `isTestFile` (ChangeAnalyzer.ts). -/
def isTestFile (fileName : String) : Bool :=
  let f := lowerStr fileName
  strContains f ".test." || strContains f ".spec." || strContains f "/tests/" ||
    strContains f "/__tests__/" || strContains f "/test/" ||
    strEndsWith f "_test.ts" || strEndsWith f "_test.js"

/-- `isConfigFile` (ChangeAnalyzer.ts). -/
def isConfigFile (fileName : String) : Bool :=
  let f := lowerStr fileName
  strEndsWith f ".json" || strEndsWith f ".yaml" || strEndsWith f ".yml" ||
    strEndsWith f ".toml" || strContains f "config" || strContains f ".env"

/-- `detectPatterns` (ChangeAnalyzer.ts lines 158-259): the ordered list of
pattern tags matched by the change text. -/
def detectPatterns (text : String) (doc : TextDocument) : List String :=
  let s := text.data
  let lowerText := lowerList s
  let bugFix :=
    testWords bugFixWords lowerText || reTest ifNullRE s ||
      reTest (reLit "?.") s || reTest (reLit "??") s || reTest (reLit ".catch(") s
  let performanceHit :=
    testWords performanceWords lowerText || reTest (reLit "promise.all") lowerText ||
      reTest asyncAwaitRE s || reTest cacheDecoratorRE s
  let securityHit :=
    testWords securityWords lowerText || reTest testMatchRE s || reTest tryCatchBlockRE s
  let errorHandling :=
    reTest tryBraceRE s || reTest catchParenRE s || reTest throwNewErrorRE s ||
      reTest (reLit ".catch(") s || reTest finallyBraceRE s
  let refactorHit :=
    testWords refactorWords lowerText || reTest newFunctionRE s ||
      reTest arrowFnRE s || reTest classDeclRE s
  let newAlgorithm :=
    testWords algorithmWords lowerText || reTest forWhileRE s || reTest reduceMapFilterRE s
  let apiChange :=
    reTest exportFunctionRE s || reTest exportClassRE s || reTest exportInterfaceRE s ||
      reTest publicMethodRE s || reTest apiTagRE lowerText
  let testAddition :=
    isTestFile doc.fileName || testWords testKeywords lowerText || reTest (reLit "@test") lowerText
  let reactPattern := reTest reactHookRE s || reTest jsxRE s
  let databaseOperation := testWords databaseWords lowerText || reTest ormCallRE s
  (if bugFix then ["bug-fix"] else []) ++
    (if performanceHit then ["performance"] else []) ++
    (if securityHit then ["security"] else []) ++
    (if errorHandling then ["error-handling"] else []) ++
    (if refactorHit then ["refactor"] else []) ++
    (if newAlgorithm then ["new-algorithm"] else []) ++
    (if apiChange then ["api-change"] else []) ++
    (if testAddition then ["test-addition"] else []) ++
    (if reactPattern then ["react-pattern"] else []) ++
    (if databaseOperation then ["database-operation"] else [])

/-- `calculateBraceDepth` (ChangeAnalyzer.ts): maximum running balance of
curly braces.  The running depth may go negative (more closers than
openers), so it is an `Int`; the maximum starts at 0. -/
def calculateBraceDepth (code : String) : Nat :=
  (go code.data 0 0).toNat
where
  go : List Char → Int → Int → Int
    | [], _, maxDepth => maxDepth
    | c :: t, currentDepth, maxDepth =>
      if c = '\x7b' then go t (currentDepth + 1) (max maxDepth (currentDepth + 1))
      else if c = '\x7d' then go t (currentDepth - 1) maxDepth
      else go t currentDepth maxDepth

def countConditionals (code : String) : Nat := countMatches conditionalsRE code.data
def countLoops (code : String) : Nat := countMatches loopsRE code.data
def countLogicalOps (code : String) : Nat := countMatches logicalOpsRE code.data
def countExceptions (code : String) : Nat := countMatches exceptionsRE code.data
def countTernary (code : String) : Nat := countMatches ternaryRE code.data
def countFunctionCalls (code : String) : Nat := countMatches functionCallsRE code.data

/-- `calculateComplexity` (ChangeAnalyzer.ts lines 303-335).  The source
computes `1 + conditionals + loops + logicalOps + exceptions + ternary +
min(functionCalls * 0.5, 10) + braceDepth * 2` and applies `Math.round`.
The only fractional contribution is the function-call half-weight, so the
value is computed here in half-units (`min(functionCalls * 0.5, 10)`
becomes `min functionCalls 20` half-units) and `Math.round` (half away
from zero on this nonnegative value) becomes `(· + 1) / 2` on the
half-unit total. -/
def calculateComplexity (code : String) : Nat :=
  let halfUnits :=
    2 * (1 + countConditionals code + countLoops code + countLogicalOps code +
        countExceptions code + countTernary code) +
      min (countFunctionCalls code) 20 +
      4 * calculateBraceDepth code
  (halfUnits + 1) / 2

/-- Offset of the first character of line `n` in `s` (clamped to the end
of the text when `s` has fewer lines). -/
def lineStartOffset : List Char → Nat → Nat
  | _, 0 => 0
  | [], _ + 1 => 0
  | c :: t, n + 1 =>
    if c = '\n' then 1 + lineStartOffset t n else 1 + lineStartOffset t (n + 1)

/-- `document.getText(new Range(a, 0, b, 0))`: the characters from the
start of line `a` to the start of line `b`. -/
def getTextLines (text : String) (a b : Nat) : String :=
  ⟨(text.data.take (lineStartOffset text.data b)).drop (lineStartOffset text.data a)⟩

/-- `findMostInterestingRegion` (ChangeAnalyzer.ts lines 264-298): scan
every change, expand it by 3 context lines on each side, re-run pattern
detection and complexity on the sub-region, keep the strictly best
`patternCount * 20 + complexity * 2` score. -/
def findMostInterestingRegion (doc : TextDocument) (changes : List ContentChange) :
    Option (Range × String) :=
  (changes.foldl
    (fun acc change =>
      let startLine := change.startLine
      let endLine := change.endLine + splitNlLength change.text
      let contextStart := startLine - 3
      let contextEnd := min (docLineCount doc - 1) (endLine + 3)
      let range : Range := ⟨contextStart, 0, contextEnd, 0⟩
      let regionText := getTextLines doc.text contextStart contextEnd
      let ps := detectPatterns regionText doc
      let complexity := calculateComplexity regionText
      let score := ps.length * 20 + complexity * 2
      if score > acc.1 then
        (score,
          some (range,
            if ps.length > 0 then "Contains: " ++ String.intercalate ", " ps
            else "Significant code change"))
      else acc)
    ((0 : Nat), (none : Option (Range × String)))).2

/-- The sequential `type` reassignments of `analyzeChange` (lines 59-108):
each matched tag overwrites the previous assignment, in source order
bug-fix, performance, security, error-handling, refactor, new-algorithm,
api-change, test-addition. -/
def resolveType (patterns : List String) : CType :=
  let t := CType.feature
  let t := if patterns.contains "bug-fix" then CType.fix else t
  let t := if patterns.contains "performance" then CType.performance else t
  let t := if patterns.contains "security" then CType.security else t
  let t := if patterns.contains "error-handling" then CType.fix else t
  let t := if patterns.contains "refactor" then CType.refactor else t
  let t := if patterns.contains "new-algorithm" then CType.feature else t
  let t := if patterns.contains "api-change" then CType.feature else t
  let t := if patterns.contains "test-addition" then CType.test else t
  t

/-- The per-tag score bonuses of `analyzeChange` (lines 61-108). -/
def patternScore (patterns : List String) : Nat :=
  (if patterns.contains "bug-fix" then 85 else 0) +
    (if patterns.contains "performance" then 80 else 0) +
    (if patterns.contains "security" then 90 else 0) +
    (if patterns.contains "error-handling" then 70 else 0) +
    (if patterns.contains "refactor" then 65 else 0) +
    (if patterns.contains "new-algorithm" then 85 else 0) +
    (if patterns.contains "api-change" then 75 else 0) +
    (if patterns.contains "test-addition" then 50 else 0)

/-- The reason strings pushed alongside the per-tag bonuses. -/
def patternReasons (patterns : List String) : List String :=
  (if patterns.contains "bug-fix" then ["Bug fix pattern detected"] else []) ++
    (if patterns.contains "performance" then ["Performance optimization"] else []) ++
    (if patterns.contains "security" then ["Security improvement"] else []) ++
    (if patterns.contains "error-handling" then ["Enhanced error handling"] else []) ++
    (if patterns.contains "refactor" then ["Code refactoring"] else []) ++
    (if patterns.contains "new-algorithm" then ["New algorithm implementation"] else []) ++
    (if patterns.contains "api-change" then ["API design change"] else []) ++
    (if patterns.contains "test-addition" then ["Test coverage added"] else [])

def SIGNIFICANT_CHANGE_THRESHOLD : Nat := 20
def MIN_LINES_CHANGED : Nat := 10

/-- The final verdict assembly of `analyzeChange` (lines 144-152):
`isInteresting` compares the unclamped score with 60, and the returned
score is the unclamped score clamped with `Math.min(score, 100)`. -/
def mkVerdict (score : Nat) (reason : Option String) (type : CType)
    (complexityDelta : Int) (suggestedCapture : Option (Range × String))
    (patterns : List String) : ChangeAnalysis :=
  ⟨decide (60 ≤ score), min score 100, reason, type, complexityDelta,
    suggestedCapture, patterns⟩

/-- `analyzeChange` (ChangeAnalyzer.ts lines 30-153).  The method is
`async` but suspends on nothing; it is modelled as a pure function of the
`documentStates` map (threaded explicitly), the document, the content
changes and the current time, returning the analysis together with the
updated map. -/
def analyzeChange (documentStates : List (String × DocState)) (document : TextDocument)
    (contentChanges : List ContentChange) (now : Int) :
    ChangeAnalysis × List (String × DocState) :=
  let fileName := document.fileName
  let addedText := String.intercalate "\n" (contentChanges.map (·.text))
  let totalLinesChanged :=
    (contentChanges.map fun change =>
      ((splitNlLength change.text : Int) - (change.rangeLength : Int)).natAbs).sum
  let previousState := documentStates.lookup fileName
  let currentComplexity := calculateComplexity document.text
  let complexityDelta : Int :=
    match previousState with
    | some st => (currentComplexity : Int) - (st.complexity : Int)
    | none => 0
  let newStates :=
    statesInsert documentStates fileName ⟨currentComplexity, docLineCount document, now⟩
  let patterns := detectPatterns addedText document
  let score := patternScore patterns
  let reasons := patternReasons patterns
  let type := resolveType patterns
  let score := score + (if complexityDelta < -5 then 30 else if complexityDelta > 10 then 20 else 0)
  let reasons := reasons ++
    (if complexityDelta < -5 then ["Complexity reduced significantly"]
     else if complexityDelta > 10 then ["Complex logic added"] else [])
  let score := score +
    (if totalLinesChanged > SIGNIFICANT_CHANGE_THRESHOLD then min (totalLinesChanged * 2) 50 else 0)
  let reasons := reasons ++
    (if totalLinesChanged > SIGNIFICANT_CHANGE_THRESHOLD then
      ["Significant change (" ++ toString totalLinesChanged ++ " lines)"] else [])
  let score := score + (if isConfigFile document.fileName then 40 else 0)
  let reasons := reasons ++ (if isConfigFile document.fileName then ["Configuration update"] else [])
  let suggestedCapture :=
    if 60 < score ∧ 0 < contentChanges.length then
      findMostInterestingRegion document contentChanges
    else none
  let joinedReason := String.intercalate "; " reasons
  (mkVerdict score (if joinedReason = "" then none else some joinedReason)
      type complexityDelta suggestedCapture patterns,
    newStates)

/-! ## ProactiveService: save-burst gate (ProactiveService.ts lines 198-241) -/

/-- Pointwise map update; the service's `Map`s with `get(...) || 0` call
sites are modelled as total functions defaulting to 0. -/
def updateFn {α : Type} (f : String → α) (k : String) (v : α) : String → α :=
  fun x => if x = k then v else f x

def ignoreFilePatterns : List String :=
  [".git", "node_modules", ".vscode", "dist", "build", "out", ".next", "coverage",
    "__pycache__"]

/-- `shouldIgnoreFile` (ProactiveService.ts lines 477-494). -/
def shouldIgnoreFile (fileName : String) : Bool :=
  ignoreFilePatterns.any (fun p => strContains fileName p) ||
    strEndsWith fileName ".min.js" || strEndsWith fileName ".map" ||
    strEndsWith fileName ".lock"

/-- The service's per-file save tracking (`lastSaveTime`, `saveBursts`). -/
structure SaveTrackState where
  lastSaveTime : String → Int
  saveBursts : String → Nat

def initSaveTrackState : SaveTrackState := ⟨fun _ => 0, fun _ => 0⟩

/-- The burst gate of `handleFileSave` (ProactiveService.ts lines
198-241): the returned flag is whether the save proceeds to
`analyzeChange` (and hence can produce a suggestion); `false` means the
handler returned early.  On the suppressed path the handler returns
before `lastSaveTime.set`, so the recorded save time stays at the last
save that was analyzed. -/
def handleFileSave (isEnabled : Bool) (st : SaveTrackState) (fileName : String)
    (now : Int) : SaveTrackState × Bool :=
  if !isEnabled then (st, false)
  else if shouldIgnoreFile fileName then (st, false)
  else
    let lastSave := st.lastSaveTime fileName
    let timeSinceLastSave := now - lastSave
    if timeSinceLastSave < 5000 then
      let burstCount := st.saveBursts fileName + 1
      let st1 : SaveTrackState := ⟨st.lastSaveTime, updateFn st.saveBursts fileName burstCount⟩
      if burstCount > 2 then (st1, false)
      else (⟨updateFn st1.lastSaveTime fileName now, st1.saveBursts⟩, true)
    else
      let st1 : SaveTrackState := ⟨st.lastSaveTime, updateFn st.saveBursts fileName 0⟩
      (⟨updateFn st1.lastSaveTime fileName now, st1.saveBursts⟩, true)

/-! ## ProactiveService: capture quality, themes, draft-readiness -/

/-- The fields of a captured item consumed by `assessCaptureQuality` and
`detectThemes`.  `Option` models absent (`undefined`) fields. -/
structure CaptureContext where
  functionName : Option String
  className : Option String
  framework : Option String
  surroundingCode : Option String
deriving DecidableEq

structure CaptureCode where
  language : Option String
deriving DecidableEq

structure Capture where
  notes : Option String
  context : Option CaptureContext
  code : Option CaptureCode
deriving DecidableEq

/-- JavaScript truthiness of a possibly-absent string: defined and
non-empty. -/
def truthyStr : Option String → Bool
  | none => false
  | some s => s ≠ ""

inductive Quality where
  | low | medium | high
deriving DecidableEq

/-- The per-capture points of `assessCaptureQuality` (ProactiveService.ts
lines 402-424). -/
def captureQualityPoints (c : Capture) : Nat :=
  (if truthyStr c.notes && decide (50 < (c.notes.getD "").length) then 2
   else if truthyStr c.notes then 1 else 0) +
    (if truthyStr (c.context.bind (·.functionName)) ||
        truthyStr (c.context.bind (·.className)) then 2 else 0) +
    (if truthyStr (c.context.bind (·.framework)) then 1 else 0) +
    (if truthyStr (c.context.bind (·.surroundingCode)) then 2 else 0) +
    (if c.code.isSome then 1 else 0)

/-- `assessCaptureQuality`: average the points and bucket them.  The
average is exact rational arithmetic; the call site guarantees a
non-empty list (and an empty list yields `low` both here and in the
source, where `0/0 = NaN` fails both comparisons). -/
def assessCaptureQuality (captures : List Capture) : Quality :=
  let score := (captures.map captureQualityPoints).sum
  let avgScore : ℚ := (score : ℚ) / (captures.length : ℚ)
  if 5 ≤ avgScore then .high
  else if 3 ≤ avgScore then .medium
  else .low

/-- `themes.set(key, (themes.get(key) || 0) + 1)` on an insertion-ordered
map. -/
def bumpTheme (themes : List (String × Nat)) (key : String) : List (String × Nat) :=
  if themes.any (·.1 = key) then
    themes.map fun e => if e.1 = key then (e.1, e.2 + 1) else e
  else themes ++ [(key, 1)]

def themeKeywords : List String := ["performance", "bug", "refactor", "api", "security", "test"]

/-- The per-capture accumulation step of `detectThemes`
(ProactiveService.ts lines 368-397). -/
def captureThemeStep (themes : List (String × Nat)) (c : Capture) : List (String × Nat) :=
  let lang := c.code.bind (·.language)
  let themes := if truthyStr lang then bumpTheme themes (lang.getD "") else themes
  let fw := c.context.bind (·.framework)
  let themes := if truthyStr fw then bumpTheme themes (fw.getD "") else themes
  let notes := lowerStr (c.notes.getD "")
  themeKeywords.foldl (fun th kw => if strContains notes kw then bumpTheme th kw else th) themes

/-- Stable insertion for descending sort by count.  `sortCountDesc`
inserts each element into its already-sorted *tail* (elements that come
later in insertion order), so the element must land before the first tail
element of smaller *or equal* count: ties then keep their original
(insertion) order, matching JavaScript's stable
`sort((a, b) => b[1] - a[1])`. -/
def insertCountDesc (x : String × Nat) : List (String × Nat) → List (String × Nat)
  | [] => [x]
  | y :: ys => if y.2 ≤ x.2 then x :: y :: ys else y :: insertCountDesc x ys

def sortCountDesc : List (String × Nat) → List (String × Nat)
  | [] => []
  | x :: xs => insertCountDesc x (sortCountDesc xs)

/-- `detectThemes`: count language/framework/keyword tags across the
captures, sort by frequency, return the top 3 tags. -/
def detectThemes (captures : List Capture) : List String :=
  let themes := captures.foldl captureThemeStep []
  ((sortCountDesc themes).take 3).map (·.1)

/-- The draft-suggestion section of `checkTimeBasedTriggers`
(ProactiveService.ts lines 344-359): `some (quality, themes)` exactly when
`showDraftSuggestion` is invoked, carrying the options it receives. -/
def checkDraftSection (allCaptures : List Capture) : Option (Quality × List String) :=
  if 5 ≤ allCaptures.length then
    let quality := assessCaptureQuality allCaptures
    let themes := detectThemes allCaptures
    if quality ≠ .low ∨ 8 ≤ allCaptures.length then some (quality, themes)
    else none
  else none

/-! ## NotificationManager (NotificationManager.ts)

The two `Map`s are modelled as total functions together with the defaults
their call sites apply: `patternSuccess.get(p) || { shown: 0, accepted: 0 }`
becomes a function defaulting to `⟨0, 0⟩`, and
`lastShownByType.get(type)` followed by the truthiness guard
`if (lastShownType && …)` becomes a function defaulting to `0` with the
guard `lastShownType ≠ 0` (a missing entry and a zero timestamp are
treated identically by the source).  Cooldown arithmetic (minutes, the
`* 0.5` halving, acceptance rates) is exact rational arithmetic. -/

structure PatternStat where
  shown : Nat
  accepted : Nat
deriving DecidableEq

structure NotificationStats where
  captureAccepted : Nat
  captureDismissed : Nat
  captureNeverAgain : Nat
  draftAccepted : Nat
  draftDismissed : Nat
  lastShownByType : String → Int
  patternSuccess : String → PatternStat

structure NotificationManager where
  lastNotificationTime : Int
  stats : NotificationStats
  sessionStart : Int
  notificationsThisSession : Nat

def MAX_NOTIFICATIONS_PER_SESSION : Nat := 5

def initStats : NotificationStats := ⟨0, 0, 0, 0, 0, fun _ => 0, fun _ => ⟨0, 0⟩⟩

/-- The constructor state (before any history is loaded). -/
def initManager (now : Int) : NotificationManager := ⟨0, initStats, now, 0⟩

/-- `saveStats` persists the five counters and `patternSuccess` but not
`lastShownByType`; `loadStats` restores exactly those into a fresh
manager.  A process restart therefore carries a manager's persisted stats
into `restartManager`. -/
def restartManager (saved : NotificationStats) (now : Int) : NotificationManager :=
  { initManager now with
    stats := { initStats with
      captureAccepted := saved.captureAccepted,
      captureDismissed := saved.captureDismissed,
      captureNeverAgain := saved.captureNeverAgain,
      draftAccepted := saved.draftAccepted,
      draftDismissed := saved.draftDismissed,
      patternSuccess := saved.patternSuccess } }

/-- `getAcceptanceRate` (lines 76-80). -/
def getAcceptanceRate (m : NotificationManager) : ℚ :=
  let total := m.stats.captureAccepted + m.stats.captureDismissed
  if total = 0 then 1 / 2
  else (m.stats.captureAccepted : ℚ) / (total : ℚ)

/-- `config.get<number>('proactive.notificationCooldown') || 30`: a
missing or zero (falsy) configured value falls back to 30 minutes. -/
def resolveBaseCooldown (cfgCooldown : Option ℚ) : ℚ :=
  match cfgCooldown with
  | some v => if v = 0 then 30 else v
  | none => 30

/-- `isInDeepWork` (lines 142-146): less than 2 minutes since the last
notification event. -/
def isInDeepWork (m : NotificationManager) (now : Int) : Bool :=
  now - m.lastNotificationTime < 2 * 60 * 1000

/-- `canShowNotification` (lines 94-137).  The unused `customCooldown`
parameter of the source is omitted.  `now` stands for the (at most two)
`Date.now()` reads during the one synchronous run. -/
def canShowNotification (m : NotificationManager) (type : String)
    (cfgCooldown : Option ℚ) (now : Int) : Bool :=
  if MAX_NOTIFICATIONS_PER_SESSION ≤ m.notificationsThisSession then false
  else
    let baseCooldown := resolveBaseCooldown cfgCooldown
    let acceptanceRate := getAcceptanceRate m
    let adaptiveCooldown :=
      if acceptanceRate < 3 / 10 then baseCooldown * 2
      else if 7 / 10 < acceptanceRate then baseCooldown * (1 / 2)
      else baseCooldown
    let cooldownMs := adaptiveCooldown * 60 * 1000
    if ((now - m.lastNotificationTime : Int) : ℚ) < cooldownMs then false
    else
      let lastShownType := m.stats.lastShownByType type
      if lastShownType ≠ 0 ∧ ((now - lastShownType : Int) : ℚ) < cooldownMs then false
      else if isInDeepWork m now then false
      else true

inductive CaptureResponse where
  | captureNow | notNow | remindLessOften | noResponse
deriving DecidableEq

inductive DraftResponse where
  | generateNow | later | viewCaptures | noResponse
deriving DecidableEq

def updatePatternMap (f : String → PatternStat) (k : String) (v : PatternStat) :
    String → PatternStat :=
  fun x => if x = k then v else f x

/-- The `stats.shown++` loop of `showCaptureSuggestion` (lines 163-170). -/
def bumpShown (f : String → PatternStat) (ps : List String) : String → PatternStat :=
  ps.foldl (fun acc p => updatePatternMap acc p ⟨(acc p).shown + 1, (acc p).accepted⟩) f

/-- The `stats.accepted++` loop of the accept branch (lines 198-203).  The
source fetches the entry with a non-null assertion; the entry always
exists there because the shown loop of the same call inserted it. -/
def bumpAccepted (f : String → PatternStat) (ps : List String) : String → PatternStat :=
  ps.foldl (fun acc p => updatePatternMap acc p ⟨(acc p).shown, (acc p).accepted + 1⟩) f

/-- `showCaptureSuggestion` (lines 151-230) as a state transition; the
flag is whether the suggestion surfaced (the gate passed).  `reason`,
`score` and `autoSelectRegion` only shape the displayed message and the
editor selection, so they are not part of the state transition; `resp` is
the user's answer.  "Remind Less Often" doubles the persisted
configuration value, which lives outside this state. -/
def showCaptureSuggestion (m : NotificationManager) (patterns : Option (List String))
    (resp : CaptureResponse) (cfgCooldown : Option ℚ) (now : Int) :
    NotificationManager × Bool :=
  if !canShowNotification m "capture" cfgCooldown now then (m, false)
  else
    let psuccess :=
      match patterns with
      | some ps => bumpShown m.stats.patternSuccess ps
      | none => m.stats.patternSuccess
    let m1 : NotificationManager :=
      { m with
        stats := { m.stats with
          patternSuccess := psuccess,
          lastShownByType := updateFn m.stats.lastShownByType "capture" now },
        lastNotificationTime := now,
        notificationsThisSession := m.notificationsThisSession + 1 }
    match resp with
    | .captureNow =>
      ({ m1 with
        stats := { m1.stats with
          captureAccepted := m1.stats.captureAccepted + 1,
          patternSuccess :=
            match patterns with
            | some ps => bumpAccepted m1.stats.patternSuccess ps
            | none => m1.stats.patternSuccess } }, true)
    | .notNow =>
      ({ m1 with
        stats := { m1.stats with captureDismissed := m1.stats.captureDismissed + 1 } }, true)
    | .remindLessOften => (m1, true)
    | .noResponse => (m1, true)

/-- `showDraftSuggestion` (lines 235-280) as a state transition. -/
def showDraftSuggestion (m : NotificationManager) (resp : DraftResponse)
    (cfgCooldown : Option ℚ) (now : Int) : NotificationManager × Bool :=
  if !canShowNotification m "draft" cfgCooldown now then (m, false)
  else
    let m1 : NotificationManager :=
      { m with
        stats := { m.stats with
          lastShownByType := updateFn m.stats.lastShownByType "draft" now },
        lastNotificationTime := now,
        notificationsThisSession := m.notificationsThisSession + 1 }
    match resp with
    | .generateNow =>
      ({ m1 with stats := { m1.stats with draftAccepted := m1.stats.draftAccepted + 1 } }, true)
    | .later =>
      ({ m1 with stats := { m1.stats with draftDismissed := m1.stats.draftDismissed + 1 } }, true)
    | .viewCaptures => (m1, true)
    | .noResponse => (m1, true)

/-- `showContextualTip` (lines 309-324) as a state transition: when the
gate passes it records only the tip's last-shown time; the user's
response at most runs an external command. -/
def showContextualTip (m : NotificationManager) (cfgCooldown : Option ℚ) (now : Int) :
    NotificationManager × Bool :=
  if !canShowNotification m "tip" cfgCooldown now then (m, false)
  else
    ({ m with
      stats := { m.stats with
        lastShownByType := updateFn m.stats.lastShownByType "tip" now } }, true)

/-- `showWeeklyReviewReminder` (lines 285-304) reads no gate and mutates
no manager state. -/
def showWeeklyReviewReminder (m : NotificationManager) : NotificationManager := m

/-- `showMilestone` (lines 329-334) mutates no manager state. -/
def showMilestone (m : NotificationManager) : NotificationManager := m

/-- `resetSession` (lines 355-358). -/
def resetSession (m : NotificationManager) (now : Int) : NotificationManager :=
  { m with sessionStart := now, notificationsThisSession := 0 }

/-- Manager states reachable from a fresh session through the public
operations, including a restart that reloads the persisted stats of a
reachable state. -/
inductive Reachable : NotificationManager → Prop where
  | init : ∀ t, Reachable (initManager t)
  | restart : ∀ {m} t, Reachable m → Reachable (restartManager m.stats t)
  | capture : ∀ {m} ps resp cfg now, Reachable m →
      Reachable (showCaptureSuggestion m ps resp cfg now).1
  | draft : ∀ {m} resp cfg now, Reachable m →
      Reachable (showDraftSuggestion m resp cfg now).1
  | tip : ∀ {m} cfg now, Reachable m → Reachable (showContextualTip m cfg now).1
  | weekly : ∀ {m}, Reachable m → Reachable (showWeeklyReviewReminder m)
  | milestone : ∀ {m}, Reachable m → Reachable (showMilestone m)
  | reset : ∀ {m} now, Reachable m → Reachable (resetSession m now)

/-! ## Helper lemmas -/

theorem mkVerdict_bounds (score : Nat) (reason : Option String) (type : CType)
    (complexityDelta : Int) (suggestedCapture : Option (Range × String))
    (patterns : List String) :
    (mkVerdict score reason type complexityDelta suggestedCapture patterns).score ≤ 100 ∧
      ((mkVerdict score reason type complexityDelta suggestedCapture patterns).isInteresting
          = true ↔
        60 ≤ (mkVerdict score reason type complexityDelta suggestedCapture patterns).score) := by
  unfold mkVerdict
  refine ⟨Nat.min_le_right _ _, ?_⟩
  simp only [decide_eq_true_eq]
  omega

/-- Modelled from the amended claim C1's words: the category of the
highest-priority matched tag under the order test-addition > api-change >
new-algorithm > refactor > error-handling > security > performance >
bug-fix (the reverse of the source's if-chain, because each later branch
overwrites earlier assignments), with new-algorithm and api-change both
mapping to `feature`, and `feature` when nothing matches. -/
def specHighestPriorityCategory (patterns : List String) : CType :=
  if patterns.contains "test-addition" then .test
  else if patterns.contains "api-change" then .feature
  else if patterns.contains "new-algorithm" then .feature
  else if patterns.contains "refactor" then .refactor
  else if patterns.contains "error-handling" then .fix
  else if patterns.contains "security" then .security
  else if patterns.contains "performance" then .performance
  else if patterns.contains "bug-fix" then .fix
  else .feature

theorem resolveType_eq_spec (ps : List String) :
    resolveType ps = specHighestPriorityCategory ps := by
  unfold resolveType specHighestPriorityCategory
  cases h1 : ps.contains "bug-fix" <;> cases h2 : ps.contains "performance" <;>
    cases h3 : ps.contains "security" <;> cases h4 : ps.contains "error-handling" <;>
    cases h5 : ps.contains "refactor" <;> cases h6 : ps.contains "new-algorithm" <;>
    cases h7 : ps.contains "api-change" <;> cases h8 : ps.contains "test-addition" <;>
    simp [h1, h2, h3, h4, h5, h6, h7, h8]

theorem analyzeChange_type_resolves (states : List (String × DocState))
    (doc : TextDocument) (changes : List ContentChange) (now : Int) :
    (analyzeChange states doc changes now).1.type =
      resolveType (analyzeChange states doc changes now).1.patterns := by
  simp only [analyzeChange, mkVerdict]

/-! ## Claims about the ChangeAnalyzer -/

def c1Doc : TextDocument := ⟨"a.ts", "finally \x7b rename"⟩

def c1Changes : List ContentChange := [⟨0, 0, 1, "finally \x7b rename"⟩]

/-- Claim C1 counterexample: an edit whose text matches exactly the
error-handling and refactor classifiers yields category `refactor`, not
`fix` — the later `refactor` branch of the if-chain overwrites the
earlier `error-handling` assignment, contradicting the claimed priority
order. -/
theorem c1_counterexample :
    (analyzeChange [] c1Doc c1Changes 0).1.patterns = ["error-handling", "refactor"] ∧
      (analyzeChange [] c1Doc c1Changes 0).1.type ≠ CType.fix := by decide

/-- Claim C1 (amended): when more than one pattern tag matches, the
returned category is that of the highest-priority matched tag under the
order test-addition > api-change > new-algorithm > refactor >
error-handling > security > performance > bug-fix (the reverse of the
source's if-chain order, each later branch overwriting earlier ones),
with new-algorithm and api-change mapping to `feature`; in particular an
edit matching both error-handling and refactor (and nothing later)
resolves to `refactor`, not `fix`. -/
theorem c1_category_last_assignment_wins (states : List (String × DocState))
    (doc : TextDocument) (changes : List ContentChange) (now : Int)
    (_h : 1 < (analyzeChange states doc changes now).1.patterns.length) :
    (analyzeChange states doc changes now).1.type =
      specHighestPriorityCategory (analyzeChange states doc changes now).1.patterns := by
  rw [analyzeChange_type_resolves, resolveType_eq_spec]

/-- Witness for C1's amended theorem at the counterexample input. -/
theorem c1_category_last_assignment_wins_witness :
    1 < (analyzeChange [] c1Doc c1Changes 0).1.patterns.length ∧
      (analyzeChange [] c1Doc c1Changes 0).1.type =
        specHighestPriorityCategory (analyzeChange [] c1Doc c1Changes 0).1.patterns :=
  ⟨by decide, c1_category_last_assignment_wins [] c1Doc c1Changes 0 (by decide)⟩

/-- Claim C2: for every document, change list and analyzer state, the
returned score lies in [0, 100] (it is a `Nat`, so 0 is a lower bound by
construction — every bonus the source adds is nonnegative — and the
returned value is clamped by `Math.min(score, 100)`), and `isInteresting`
holds exactly when the returned score is at least 60. -/
theorem c2_score_bounds (states : List (String × DocState)) (doc : TextDocument)
    (changes : List ContentChange) (now : Int) :
    (analyzeChange states doc changes now).1.score ≤ 100 ∧
      ((analyzeChange states doc changes now).1.isInteresting = true ↔
        60 ≤ (analyzeChange states doc changes now).1.score) := by
  exact mkVerdict_bounds _ _ _ _ _ _

def c4Code : String := "if (a) \x7b for (b) \x7b c \x7d \x7d"

/-- Claim C4 counterexample: a text with exactly one if-statement, one
for-loop, nesting depth 2 and no other conditional/loop/logical/
exception/ternary constructs yields complexity 8, not the claimed 7 —
the function-call counter `\w+\s*\(` also matches `if (` and `for (`,
contributing `min(2 × 0.5, 10) = 1`. -/
theorem c4_counterexample :
    countConditionals c4Code = 1 ∧ countLoops c4Code = 1 ∧
      calculateBraceDepth c4Code = 2 ∧ countLogicalOps c4Code = 0 ∧
      countExceptions c4Code = 0 ∧ countTernary c4Code = 0 ∧
      calculateComplexity c4Code ≠ 7 ∧ calculateComplexity c4Code = 8 := by decide

/-- Claim C4 (amended): a text with exactly one counted conditional (the
if-statement), one counted loop (the for-loop), maximum nesting depth 2,
no logical/exception/ternary constructs and the two call-expression
matches that `if (` and `for (` themselves produce yields
`1 + 1 + 1 + 2×2 + round-contribution of min(2 × 0.5, 10) = 8`. -/
theorem c4_complexity_eight (code : String)
    (h1 : countConditionals code = 1) (h2 : countLoops code = 1)
    (h3 : calculateBraceDepth code = 2) (h4 : countLogicalOps code = 0)
    (h5 : countExceptions code = 0) (h6 : countTernary code = 0)
    (h7 : countFunctionCalls code = 2) :
    calculateComplexity code = 8 := by
  unfold calculateComplexity
  rw [h1, h2, h3, h4, h5, h6, h7]
  decide

/-- Witness for C4's amended theorem at the counterexample text. -/
theorem c4_complexity_eight_witness :
    (countConditionals c4Code = 1 ∧ countLoops c4Code = 1 ∧
      calculateBraceDepth c4Code = 2 ∧ countLogicalOps c4Code = 0 ∧
      countExceptions c4Code = 0 ∧ countTernary c4Code = 0 ∧
      countFunctionCalls c4Code = 2) ∧
      calculateComplexity c4Code = 8 :=
  ⟨by decide,
    c4_complexity_eight c4Code (by decide) (by decide) (by decide) (by decide)
      (by decide) (by decide) (by decide)⟩

theorem detectPatterns_nil (doc : TextDocument) (h : isTestFile doc.fileName = false) :
    detectPatterns "" doc = [] := by
  simp [detectPatterns, h]
  decide

/-- Claim C8 counterexample: with an empty change list the verdict is not
always zero/uninteresting — for a document whose file name classifies it
as both a test file and a config file, the empty diff still scores
50 + 40 = 90 and is marked interesting. -/
theorem c8_counterexample :
    (analyzeChange [] ⟨"a.test.json", ""⟩ [] 0).1.score = 90 ∧
      (analyzeChange [] ⟨"a.test.json", ""⟩ [] 0).1.isInteresting = true := by decide

/-- Claim C8 (amended): `analyzeChange` is a total function (the model
never raises by construction, matching the source's pure computation),
and an empty change list yields score 0 and an uninteresting verdict
provided the document is neither a test file (whose name alone triggers
the test-addition bonus) nor a config file (+40), and the analyzer holds
no previous state for it (a recorded complexity drop would add +30). -/
theorem c8_empty_changes_zero (doc : TextDocument) (now : Int)
    (h1 : isTestFile doc.fileName = false) (h2 : isConfigFile doc.fileName = false) :
    (analyzeChange [] doc [] now).1.score = 0 ∧
      (analyzeChange [] doc [] now).1.isInteresting = false := by
  have hint : ("\n".intercalate ([] : List String)) = "" := rfl
  simp [analyzeChange, hint, detectPatterns_nil doc h1, h2, mkVerdict, patternScore,
    SIGNIFICANT_CHANGE_THRESHOLD]

/-- Witness for C8's amended theorem on a plain source file. -/
theorem c8_empty_changes_zero_witness :
    (isTestFile "a.ts" = false ∧ isConfigFile "a.ts" = false) ∧
      (analyzeChange [] ⟨"a.ts", "x"⟩ [] 0).1.score = 0 ∧
      (analyzeChange [] ⟨"a.ts", "x"⟩ [] 0).1.isInteresting = false :=
  ⟨by decide, c8_empty_changes_zero ⟨"a.ts", "x"⟩ 0 (by decide) (by decide)⟩

/-! ## Claims about the ProactiveService -/

/-- Claim C3 counterexample: three saves of the same file, each within 5
seconds of the previous one (the first on a fresh state), all reach
analysis — the third save is analyzed, because suppression requires a
burst count above 2 and the count reaches 3 only on the fourth rapid
save. -/
theorem c3_counterexample :
    (handleFileSave true
        (handleFileSave true
          (handleFileSave true initSaveTrackState "a.ts" 10000).1 "a.ts" 11000).1
        "a.ts" 12000).2 = true := by decide

/-- Claim C3 (amended): for a non-ignored file starting from a fresh
tracker, in a run of rapid saves (each within 5 seconds of its
predecessor) the first three are analyzed and the fourth is suppressed;
the suppressed save does not update the recorded save time, and a save
at least 5 seconds after the last analyzed save resets the burst counter
to 0 and is analyzed again. -/
theorem c3_burst_gate (f : String) (t0 t1 t2 t3 t4 : Int)
    (hIgn : shouldIgnoreFile f = false)
    (h0 : 5000 ≤ t0)
    (h1 : t1 - t0 < 5000) (h2 : t2 - t1 < 5000) (h3 : t3 - t2 < 5000)
    (h4 : 5000 ≤ t4 - t2) :
    (handleFileSave true initSaveTrackState f t0).2 = true ∧
      (handleFileSave true (handleFileSave true initSaveTrackState f t0).1 f t1).2 = true ∧
      (handleFileSave true (handleFileSave true (handleFileSave true initSaveTrackState f t0).1 f t1).1 f t2).2 = true ∧
      (handleFileSave true (handleFileSave true (handleFileSave true (handleFileSave true initSaveTrackState f t0).1 f t1).1 f t2).1 f t3).2 = false ∧
      (handleFileSave true (handleFileSave true (handleFileSave true (handleFileSave true (handleFileSave true initSaveTrackState f t0).1 f t1).1 f t2).1 f t3).1 f t4).2 = true ∧
      (handleFileSave true (handleFileSave true (handleFileSave true (handleFileSave true (handleFileSave true initSaveTrackState f t0).1 f t1).1 f t2).1 f t3).1 f t4).1.saveBursts f = 0 := by
  have e0 : ¬(t0 < 5000) := by omega
  have e4 : ¬(t4 - t2 < 5000) := by omega
  simp [handleFileSave, hIgn, initSaveTrackState, updateFn, e0, h1, h2, h3, e4]

/-- Witness for C3's amended theorem at concrete times. -/
theorem c3_burst_gate_witness :
    (shouldIgnoreFile "a.ts" = false ∧ (5000 : Int) ≤ 10000 ∧
      (11000 : Int) - 10000 < 5000 ∧ (12000 : Int) - 11000 < 5000 ∧
      (13000 : Int) - 12000 < 5000 ∧ (5000 : Int) ≤ 17000 - 12000) ∧
      (handleFileSave true initSaveTrackState "a.ts" 10000).2 = true ∧
      (handleFileSave true (handleFileSave true initSaveTrackState "a.ts" 10000).1 "a.ts" 11000).2 = true ∧
      (handleFileSave true (handleFileSave true (handleFileSave true initSaveTrackState "a.ts" 10000).1 "a.ts" 11000).1 "a.ts" 12000).2 = true ∧
      (handleFileSave true (handleFileSave true (handleFileSave true (handleFileSave true initSaveTrackState "a.ts" 10000).1 "a.ts" 11000).1 "a.ts" 12000).1 "a.ts" 13000).2 = false ∧
      (handleFileSave true (handleFileSave true (handleFileSave true (handleFileSave true (handleFileSave true initSaveTrackState "a.ts" 10000).1 "a.ts" 11000).1 "a.ts" 12000).1 "a.ts" 13000).1 "a.ts" 17000).2 = true ∧
      (handleFileSave true (handleFileSave true (handleFileSave true (handleFileSave true (handleFileSave true initSaveTrackState "a.ts" 10000).1 "a.ts" 11000).1 "a.ts" 12000).1 "a.ts" 13000).1 "a.ts" 17000).1.saveBursts "a.ts" = 0 :=
  ⟨by decide,
    c3_burst_gate "a.ts" 10000 11000 12000 13000 17000 (by decide) (by decide)
      (by decide) (by decide) (by decide) (by decide)⟩

def emptyCapture : Capture := ⟨none, none, none⟩

unseal Rat.mul Rat.inv Rat.add Rat.sub in
/-- Claim C7 counterexample: five captures with no notes, no context and
no code have aggregate quality `low` and fewer than 8 items, so the
hourly tick offers no draft suggestion even though at least 5 items are
captured. -/
theorem c7_counterexample :
    5 ≤ (List.replicate 5 emptyCapture).length ∧
      checkDraftSection (List.replicate 5 emptyCapture) = none := by decide

/-- Claim C7 (amended): on an hourly tick, whenever at least 5 items are
captured and additionally the aggregate quality is not `low` or at least
8 items exist, the draft-readiness suggestion is offered (subject only to
the notification gate inside `showDraftSuggestion`), annotated with the
quality label computed by `assessCaptureQuality` (from notes length,
structural context and presence of code) and with the at most 3 themes
from `detectThemes`. -/
theorem c7_draft_readiness (allCaptures : List Capture)
    (h5 : 5 ≤ allCaptures.length)
    (hq : assessCaptureQuality allCaptures ≠ .low ∨ 8 ≤ allCaptures.length) :
    checkDraftSection allCaptures =
      some (assessCaptureQuality allCaptures, detectThemes allCaptures) ∧
      (detectThemes allCaptures).length ≤ 3 := by
  refine ⟨by simp [checkDraftSection, h5, hq], ?_⟩
  unfold detectThemes
  simp

def richCapture : Capture :=
  ⟨some "x", some ⟨some "f", none, some "react", some "code"⟩, some ⟨some "ts"⟩⟩

unseal Rat.mul Rat.inv Rat.add Rat.sub in
/-- Witness for C7's amended theorem on five high-quality captures. -/
theorem c7_draft_readiness_witness :
    (5 ≤ (List.replicate 5 richCapture).length ∧
      (assessCaptureQuality (List.replicate 5 richCapture) ≠ .low ∨
        8 ≤ (List.replicate 5 richCapture).length)) ∧
      checkDraftSection (List.replicate 5 richCapture) =
        some (assessCaptureQuality (List.replicate 5 richCapture),
          detectThemes (List.replicate 5 richCapture)) ∧
      (detectThemes (List.replicate 5 richCapture)).length ≤ 3 :=
  ⟨⟨by decide, Or.inl (by decide)⟩,
    c7_draft_readiness (List.replicate 5 richCapture) (by decide) (Or.inl (by decide))⟩

/-! ## Claims about the NotificationManager -/

theorem canShow_false_of_cap (m : NotificationManager) (ty : String) (cfg : Option ℚ)
    (now : Int) (h : 5 ≤ m.notificationsThisSession) :
    canShowNotification m ty cfg now = false := by
  unfold canShowNotification MAX_NOTIFICATIONS_PER_SESSION
  simp [h]

theorem canShow_true_lt_cap (m : NotificationManager) (ty : String) (cfg : Option ℚ)
    (now : Int) (h : canShowNotification m ty cfg now = true) :
    m.notificationsThisSession < 5 := by
  by_contra hc
  rw [canShow_false_of_cap m ty cfg now (by omega)] at h
  exact Bool.false_ne_true h

theorem showCapture_count (m : NotificationManager) (ps : Option (List String))
    (resp : CaptureResponse) (cfg : Option ℚ) (now : Int) :
    (showCaptureSuggestion m ps resp cfg now).1.notificationsThisSession =
      if canShowNotification m "capture" cfg now then m.notificationsThisSession + 1
      else m.notificationsThisSession := by
  unfold showCaptureSuggestion
  by_cases hc : canShowNotification m "capture" cfg now <;> cases resp <;> simp [hc]

theorem showDraft_count (m : NotificationManager) (resp : DraftResponse)
    (cfg : Option ℚ) (now : Int) :
    (showDraftSuggestion m resp cfg now).1.notificationsThisSession =
      if canShowNotification m "draft" cfg now then m.notificationsThisSession + 1
      else m.notificationsThisSession := by
  unfold showDraftSuggestion
  by_cases hc : canShowNotification m "draft" cfg now <;> cases resp <;> simp [hc]

theorem showTip_count (m : NotificationManager) (cfg : Option ℚ) (now : Int) :
    (showContextualTip m cfg now).1.notificationsThisSession =
      m.notificationsThisSession := by
  unfold showContextualTip
  by_cases hc : canShowNotification m "tip" cfg now <;> simp [hc]

/-- Claim C6: in every reachable manager state the number of suggestions
shown this session never exceeds 5, and once it has reached 5 no gated
suggestion (capture, draft or tip) surfaces for any event until
`resetSession`. -/
theorem c6_session_cap :
    (∀ m, Reachable m → m.notificationsThisSession ≤ 5) ∧
      (∀ (m : NotificationManager), 5 ≤ m.notificationsThisSession →
        (∀ ps resp cfg now, (showCaptureSuggestion m ps resp cfg now).2 = false) ∧
        (∀ resp cfg now, (showDraftSuggestion m resp cfg now).2 = false) ∧
        (∀ cfg now, (showContextualTip m cfg now).2 = false)) := by
  constructor
  · intro m hm
    induction hm with
    | init t => simp [initManager]
    | restart t _ ih => simp [restartManager, initManager]
    | capture ps resp cfg now _ ih =>
      rename_i m' _
      rw [showCapture_count]
      split
      · next hc => have := canShow_true_lt_cap m' "capture" cfg now hc; omega
      · exact ih
    | draft resp cfg now _ ih =>
      rename_i m' _
      rw [showDraft_count]
      split
      · next hc => have := canShow_true_lt_cap m' "draft" cfg now hc; omega
      · exact ih
    | tip cfg now _ ih =>
      rename_i m' _
      rw [showTip_count]
      exact ih
    | weekly _ ih => exact ih
    | milestone _ ih => exact ih
    | reset now _ ih => simp [resetSession]
  · intro m hm
    refine ⟨fun ps resp cfg now => ?_, fun resp cfg now => ?_, fun cfg now => ?_⟩
    · unfold showCaptureSuggestion
      rw [canShow_false_of_cap m "capture" cfg now hm]
      cases resp <;> simp
    · unfold showDraftSuggestion
      rw [canShow_false_of_cap m "draft" cfg now hm]
      cases resp <;> simp
    · unfold showContextualTip
      rw [canShow_false_of_cap m "tip" cfg now hm]
      simp

def c6CapManager : NotificationManager :=
  { initManager 0 with notificationsThisSession := 5 }

/-- Witness for C6 at the initial state and at a capped state. -/
theorem c6_session_cap_witness :
    (initManager 0).notificationsThisSession ≤ 5 ∧
      5 ≤ c6CapManager.notificationsThisSession ∧
      (showCaptureSuggestion c6CapManager none .captureNow none 10000000).2 = false ∧
      (showDraftSuggestion c6CapManager .generateNow none 10000000).2 = false ∧
      (showContextualTip c6CapManager none 10000000).2 = false :=
  ⟨c6_session_cap.1 (initManager 0) (Reachable.init 0),
    by decide,
    (c6_session_cap.2 c6CapManager (by decide)).1 none .captureNow none 10000000,
    (c6_session_cap.2 c6CapManager (by decide)).2.1 .generateNow none 10000000,
    (c6_session_cap.2 c6CapManager (by decide)).2.2 none 10000000⟩

theorem bumpShown_apply (f : String → PatternStat) (ps : List String) (q : String) :
    (bumpShown f ps) q = ⟨(f q).shown + ps.count q, (f q).accepted⟩ := by
  induction ps generalizing f with
  | nil => simp [bumpShown]
  | cons p t ih =>
    have step : bumpShown f (p :: t) =
        bumpShown (updatePatternMap f p ⟨(f p).shown + 1, (f p).accepted⟩) t := rfl
    rw [step, ih]
    unfold updatePatternMap
    by_cases hq : q = p
    · subst hq
      simp [List.count_cons]
      omega
    · simp [hq, List.count_cons, Ne.symm hq]

theorem bumpAccepted_apply (f : String → PatternStat) (ps : List String) (q : String) :
    (bumpAccepted f ps) q = ⟨(f q).shown, (f q).accepted + ps.count q⟩ := by
  induction ps generalizing f with
  | nil => simp [bumpAccepted]
  | cons p t ih =>
    have step : bumpAccepted f (p :: t) =
        bumpAccepted (updatePatternMap f p ⟨(f p).shown, (f p).accepted + 1⟩) t := rfl
    rw [step, ih]
    unfold updatePatternMap
    by_cases hq : q = p
    · subst hq
      simp [List.count_cons]
      omega
    · simp [hq, List.count_cons, Ne.symm hq]

theorem showCapture_psuccess (m : NotificationManager) (ps : Option (List String))
    (resp : CaptureResponse) (cfg : Option ℚ) (now : Int) (q : String) :
    (showCaptureSuggestion m ps resp cfg now).1.stats.patternSuccess q =
      if canShowNotification m "capture" cfg now then
        match ps with
        | some l =>
          if resp = .captureNow then (bumpAccepted (bumpShown m.stats.patternSuccess l) l) q
          else (bumpShown m.stats.patternSuccess l) q
        | none => m.stats.patternSuccess q
      else m.stats.patternSuccess q := by
  unfold showCaptureSuggestion
  by_cases hc : canShowNotification m "capture" cfg now <;> cases resp <;> cases ps <;>
    simp [hc]

theorem showDraft_psuccess (m : NotificationManager) (resp : DraftResponse)
    (cfg : Option ℚ) (now : Int) :
    (showDraftSuggestion m resp cfg now).1.stats.patternSuccess =
      m.stats.patternSuccess := by
  unfold showDraftSuggestion
  by_cases hc : canShowNotification m "draft" cfg now <;> cases resp <;> simp [hc]

theorem showTip_psuccess (m : NotificationManager) (cfg : Option ℚ) (now : Int) :
    (showContextualTip m cfg now).1.stats.patternSuccess = m.stats.patternSuccess := by
  unfold showContextualTip
  by_cases hc : canShowNotification m "tip" cfg now <;> simp [hc]

/-- Claim C9: in every reachable manager state, every pattern tag's
accepted count is bounded by its shown count — the shown counter of a tag
is incremented (before display) strictly before any accept can increment
the corresponding accepted counter, and this invariant survives restarts
that reload the persisted stats. -/
theorem c9_accepted_le_shown (m : NotificationManager) (hm : Reachable m) (p : String) :
    (m.stats.patternSuccess p).accepted ≤ (m.stats.patternSuccess p).shown := by
  induction hm generalizing p with
  | init t => simp [initManager, initStats]
  | restart t _ ih => simpa [restartManager, initStats] using ih p
  | capture ps resp cfg now _ ih =>
    rename_i m' _
    rw [showCapture_psuccess]
    split
    · cases ps with
      | none => exact ih p
      | some l =>
        by_cases hr : resp = .captureNow
        · simp only [hr, if_pos rfl]
          rw [bumpAccepted_apply, bumpShown_apply]
          have := ih p
          simp
          omega
        · simp only [if_neg hr]
          rw [bumpShown_apply]
          have := ih p
          simp
          omega
    · exact ih p
  | draft resp cfg now _ ih =>
    rw [showDraft_psuccess]
    exact ih p
  | tip cfg now _ ih =>
    rw [showTip_psuccess]
    exact ih p
  | weekly _ ih => exact ih p
  | milestone _ ih => exact ih p
  | reset now _ ih => exact ih p

/-- Witness for C9 at the initial state. -/
theorem c9_accepted_le_shown_witness :
    ((initManager 0).stats.patternSuccess "bug-fix").accepted ≤
      ((initManager 0).stats.patternSuccess "bug-fix").shown :=
  c9_accepted_le_shown (initManager 0) (Reachable.init 0) "bug-fix"

/-- Claim C10: when `showContextualTip` shows a tip it updates only the
"tip" entry of `lastShownByType`: the session counter, the global
last-notification time, the session start, every accepted/dismissed
counter, the pattern statistics and every other type's last-shown entry
are unchanged, so a shown tip neither consumes the 5-per-session cap nor
starts the global cooldown for other suggestion kinds. -/
theorem c10_tip_frame (m : NotificationManager) (cfg : Option ℚ) (now : Int)
    (h : (showContextualTip m cfg now).2 = true) :
    (showContextualTip m cfg now).1.notificationsThisSession = m.notificationsThisSession ∧
      (showContextualTip m cfg now).1.lastNotificationTime = m.lastNotificationTime ∧
      (showContextualTip m cfg now).1.sessionStart = m.sessionStart ∧
      (showContextualTip m cfg now).1.stats.captureAccepted = m.stats.captureAccepted ∧
      (showContextualTip m cfg now).1.stats.captureDismissed = m.stats.captureDismissed ∧
      (showContextualTip m cfg now).1.stats.captureNeverAgain = m.stats.captureNeverAgain ∧
      (showContextualTip m cfg now).1.stats.draftAccepted = m.stats.draftAccepted ∧
      (showContextualTip m cfg now).1.stats.draftDismissed = m.stats.draftDismissed ∧
      (showContextualTip m cfg now).1.stats.patternSuccess = m.stats.patternSuccess ∧
      (showContextualTip m cfg now).1.stats.lastShownByType "tip" = now ∧
      ∀ ty, ty ≠ "tip" →
        (showContextualTip m cfg now).1.stats.lastShownByType ty =
          m.stats.lastShownByType ty := by
  unfold showContextualTip at *
  by_cases hc : canShowNotification m "tip" cfg now
  · simp +contextual [hc, updateFn]
  · simp [hc] at h

unseal Rat.mul Rat.inv Rat.add Rat.sub in
/-- Witness for C10 on the initial state at a late enough time. -/
theorem c10_tip_frame_witness :
    (showContextualTip (initManager 0) none 1000000000).2 = true ∧
      (showContextualTip (initManager 0) none 1000000000).1.notificationsThisSession =
        (initManager 0).notificationsThisSession ∧
      (showContextualTip (initManager 0) none 1000000000).1.lastNotificationTime =
        (initManager 0).lastNotificationTime ∧
      (showContextualTip (initManager 0) none 1000000000).1.stats.captureAccepted =
        (initManager 0).stats.captureAccepted ∧
      (showContextualTip (initManager 0) none 1000000000).1.stats.patternSuccess =
        (initManager 0).stats.patternSuccess ∧
      (showContextualTip (initManager 0) none 1000000000).1.stats.lastShownByType "tip" =
        1000000000 ∧
      (showContextualTip (initManager 0) none 1000000000).1.stats.lastShownByType "capture" =
        (initManager 0).stats.lastShownByType "capture" :=
  have h := c10_tip_frame (initManager 0) none 1000000000 (by decide)
  ⟨by decide, h.1, h.2.1, h.2.2.2.1, h.2.2.2.2.2.2.2.2.1,
    h.2.2.2.2.2.2.2.2.2.1, h.2.2.2.2.2.2.2.2.2.2 "capture" (by decide)⟩

theorem showCapture_notNow_effects (m : NotificationManager) (ps : Option (List String))
    (cfg : Option ℚ) (now : Int)
    (h : (showCaptureSuggestion m ps .notNow cfg now).2 = true) :
    (showCaptureSuggestion m ps .notNow cfg now).1.stats.captureAccepted =
        m.stats.captureAccepted ∧
      (showCaptureSuggestion m ps .notNow cfg now).1.stats.captureDismissed =
        m.stats.captureDismissed + 1 ∧
      (showCaptureSuggestion m ps .notNow cfg now).1.lastNotificationTime = now := by
  unfold showCaptureSuggestion at *
  by_cases hc : canShowNotification m "capture" cfg now
  · simp [hc]
  · simp [hc] at h

theorem rate_lt_threshold (a : Nat) (ha : a ≤ 1) :
    (a : ℚ) / ((a : ℚ) + 3) < 3 / 10 := by
  interval_cases a <;> norm_num

theorem canShow_false_of_low_rate (m : NotificationManager) (ty : String)
    (cfg : Option ℚ) (now : Int)
    (hr : getAcceptanceRate m < 3 / 10)
    (hcd : ((now - m.lastNotificationTime : Int) : ℚ) <
      resolveBaseCooldown cfg * 2 * 60 * 1000) :
    canShowNotification m ty cfg now = false := by
  unfold canShowNotification
  by_cases hs : MAX_NOTIFICATIONS_PER_SESSION ≤ m.notificationsThisSession
  · simp [hs]
  · have hcd2 : (now : ℚ) - (m.lastNotificationTime : ℚ) <
        resolveBaseCooldown cfg * 2 * 60 * 1000 := by
      push_cast at hcd
      exact hcd
    simp [hs, hr, hcd2]

/-- Claim C5 (amended): starting from a state with no dismissed capture
responses, after exactly 3 dismiss responses for kind capture the
acceptance rate equals `accepted / (accepted + 3)` for every prior
accepted count; and whenever `accepted ≤ 1` — so that this rate is below
0.3, which doubles the adaptive cooldown — a 4th capture suggestion does
not surface before `baseCooldown × 2` minutes have elapsed since the
last shown notification, even if the session cap, per-kind cooldown and
deep-work checks would all pass. -/
theorem c5_three_dismissals (m0 : NotificationManager)
    (ps1 ps2 ps3 : Option (List String)) (cfg : Option ℚ) (t1 t2 t3 : Int)
    (hd : m0.stats.captureDismissed = 0)
    (h1 : (showCaptureSuggestion m0 ps1 .notNow cfg t1).2 = true)
    (h2 : (showCaptureSuggestion (showCaptureSuggestion m0 ps1 .notNow cfg t1).1 ps2 .notNow cfg t2).2 = true)
    (h3 : (showCaptureSuggestion (showCaptureSuggestion (showCaptureSuggestion m0 ps1 .notNow cfg t1).1 ps2 .notNow cfg t2).1 ps3 .notNow cfg t3).2 = true) :
    getAcceptanceRate (showCaptureSuggestion (showCaptureSuggestion (showCaptureSuggestion m0 ps1 .notNow cfg t1).1 ps2 .notNow cfg t2).1 ps3 .notNow cfg t3).1 =
        (m0.stats.captureAccepted : ℚ) / ((m0.stats.captureAccepted : ℚ) + 3) ∧
      (m0.stats.captureAccepted ≤ 1 →
        ∀ now : Int,
          ((now - (showCaptureSuggestion (showCaptureSuggestion (showCaptureSuggestion m0 ps1 .notNow cfg t1).1 ps2 .notNow cfg t2).1 ps3 .notNow cfg t3).1.lastNotificationTime : Int) : ℚ) <
              resolveBaseCooldown cfg * 2 * 60 * 1000 →
            canShowNotification (showCaptureSuggestion (showCaptureSuggestion (showCaptureSuggestion m0 ps1 .notNow cfg t1).1 ps2 .notNow cfg t2).1 ps3 .notNow cfg t3).1
              "capture" cfg now = false) := by
  obtain ⟨e1a, e1d, -⟩ := showCapture_notNow_effects m0 ps1 cfg t1 h1
  obtain ⟨e2a, e2d, -⟩ := showCapture_notNow_effects _ ps2 cfg t2 h2
  obtain ⟨e3a, e3d, -⟩ := showCapture_notNow_effects _ ps3 cfg t3 h3
  set m3 := (showCaptureSuggestion (showCaptureSuggestion (showCaptureSuggestion m0 ps1 .notNow cfg t1).1 ps2 .notNow cfg t2).1 ps3 .notNow cfg t3).1 with hm3
  have hacc : m3.stats.captureAccepted = m0.stats.captureAccepted := by
    rw [hm3, e3a, e2a, e1a]
  have hdis : m3.stats.captureDismissed = 3 := by
    rw [hm3, e3d, e2d, e1d, hd]
  have hrate : getAcceptanceRate m3 =
      (m0.stats.captureAccepted : ℚ) / ((m0.stats.captureAccepted : ℚ) + 3) := by
    unfold getAcceptanceRate
    rw [hacc, hdis]
    have hne : m0.stats.captureAccepted + 3 ≠ 0 := by omega
    simp [hne]
  refine ⟨hrate, fun ha now hlt => ?_⟩
  apply canShow_false_of_low_rate m3 "capture" cfg now ?_ hlt
  rw [hrate]
  exact rate_lt_threshold m0.stats.captureAccepted ha

def c5BaseManager : NotificationManager :=
  { initManager 0 with stats := { initStats with captureAccepted := 2 } }

def c5After : NotificationManager :=
  (showCaptureSuggestion
    (showCaptureSuggestion
      (showCaptureSuggestion c5BaseManager none .notNow none 10000000).1
      none .notNow none 20000000).1
    none .notNow none 30000000).1

unseal Rat.mul Rat.inv Rat.add Rat.sub in
/-- Claim C5 counterexample: with 2 previously accepted captures, after
exactly 3 dismissals the acceptance rate is 2/5 = 0.4 ≥ 0.3, so the
cooldown is not doubled: a 4th capture suggestion surfaces about 31.7
minutes after the last shown notification, before `baseCooldown × 2`
(60 minutes with the default 30) has elapsed — refuting the claim's
"for every prior count accepted". -/
theorem c5_counterexample :
    c5After.stats.captureDismissed = 3 ∧
      getAcceptanceRate c5After = 2 / 5 ∧
      ((31900000 - c5After.lastNotificationTime : Int) : ℚ) < 2 * 30 * 60 * 1000 ∧
      canShowNotification c5After "capture" none 31900000 = true := by decide

def c5wBaseManager : NotificationManager :=
  { initManager 0 with stats := { initStats with captureAccepted := 1 } }

unseal Rat.mul Rat.inv Rat.add Rat.sub in
/-- Witness for C5's amended theorem with 1 prior accepted capture. -/
theorem c5_three_dismissals_witness :
    (c5wBaseManager.stats.captureAccepted ≤ 1 ∧ c5wBaseManager.stats.captureDismissed = 0) ∧
      getAcceptanceRate (showCaptureSuggestion (showCaptureSuggestion (showCaptureSuggestion c5wBaseManager none .notNow none 10000000).1 none .notNow none 20000000).1 none .notNow none 30000000).1 =
        (c5wBaseManager.stats.captureAccepted : ℚ) / ((c5wBaseManager.stats.captureAccepted : ℚ) + 3) ∧
      canShowNotification (showCaptureSuggestion (showCaptureSuggestion (showCaptureSuggestion c5wBaseManager none .notNow none 10000000).1 none .notNow none 20000000).1 none .notNow none 30000000).1
        "capture" none 30001000 = false :=
  have h := c5_three_dismissals c5wBaseManager none none none none 10000000 20000000 30000000
    (by decide) (by decide) (by decide) (by decide)
  ⟨⟨by decide, by decide⟩, h.1, h.2 (by decide) 30001000 (by decide)⟩
